import Mathlib

/-!
Verification of the generic entity repository and service layer of a
YAML-driven CRUD application (approot/repositories/generic_repo.py and
approot/services/generic_service.py), as a shallow embedding.

Python dictionaries are modelled as insertion-ordered association lists,
scalar values as `Value`, the database as an explicit `DBState` threaded
through each repository operation, and Python exceptions as `Except PyErr`.
The SQLAlchemy table is modelled as in the source fallback path of
`_get_table`: a table whose columns are the column names handed to it, and a
driver that exposes `lastrowid` (sqlite-like, as in the test harness of the
repository).  Statement compilation with `literal_binds` is modelled by
`renderExec`.
-/

/-- Scalar values stored in payloads and database rows. -/
inductive Value where
  | vnull
  | vint (n : Int)
  | vstr (s : String)
deriving BEq, DecidableEq, Repr

/-- Python str() of a scalar value. -/
def pyStr : Value → String
  | .vnull => "None"
  | .vint n => toString n
  | .vstr s => s

/-- Membership of a value in the tuple (None, "", 0), the falsy set used by
the repository save decision. -/
def isFalsyRepo (v : Value) : Bool :=
  v == Value.vnull || v == Value.vstr "" || v == Value.vint 0

/-- Membership of a value in the tuple (None, "", "0", 0), the falsy set used
by the service handle_save decision. -/
def isFalsySvc (v : Value) : Bool :=
  v == Value.vnull || v == Value.vstr "" || v == Value.vstr "0" || v == Value.vint 0

/-- A Python dict from field name to value, as an insertion-ordered
association list. -/
abbrev Payload := List (String × Value)

/-- dict.get: the value at a key, None result when absent. -/
def pget (p : Payload) (k : String) : Option Value :=
  (p.find? (fun kv => kv.1 == k)).map (fun kv => kv.2)

/-- Key membership in a dict. -/
def pmem (p : Payload) (k : String) : Bool :=
  p.any (fun kv => kv.1 == k)

/-- dict item assignment: replace the value at the key in place, appending
the pair when the key is new. -/
def pset (p : Payload) (k : String) (v : Value) : Payload :=
  if pmem p k then p.map (fun kv => if kv.1 == k then (k, v) else kv)
  else p ++ [(k, v)]

/-- Assignment into a string-to-string dict (the validation errors mapping). -/
def eset (m : List (String × String)) (k v : String) : List (String × String) :=
  if m.any (fun kv => kv.1 == k) then m.map (fun kv => if kv.1 == k then (k, v) else kv)
  else m ++ [(k, v)]

/-- Substring test on character lists. -/
def charsContains (hay needle : List Char) : Bool :=
  match hay with
  | [] => needle.isEmpty
  | _ :: t => needle.isPrefixOf hay || charsContains t needle

/-- Python `needle in hay` on strings. -/
def strContains (hay needle : String) : Bool :=
  charsContains hay.data needle.data

/-- Prefix test on strings, by character list. -/
def strStartsWith (s pre : String) : Bool := pre.data.isPrefixOf s.data

/-- Suffix test on strings, by character list. -/
def strEndsWith (s suf : String) : Bool := suf.data.isSuffixOf s.data

/-- Drop the first n characters of a string. -/
def strDrop (s : String) (n : Nat) : String := String.mk (s.data.drop n)

/-- Drop the last n characters of a string. -/
def strDropRight (s : String) (n : Nat) : String :=
  String.mk (s.data.take (s.data.length - n))

/-- Python str.lower() restricted to ASCII, as the classified messages are. -/
def pyLower (s : String) : String := String.mk (s.data.map Char.toLower)

/-- The part of a string after its last "@" (the whole string when no "@"),
as str.split("@")[-1] computes it. -/
def afterLastAt (s : String) : String :=
  String.mk ((s.data.foldl
    (fun acc c => if c == '@' then some [] else acc.map (fun l => l ++ [c]))
    none).getD s.data)

/-- Parse a decimal digit string. -/
def charsToNat? (cs : List Char) : Option Nat :=
  if cs.isEmpty then none
  else if cs.all Char.isDigit then
    some (cs.foldl (fun acc c => 10 * acc + (c.toNat - 48)) 0)
  else none

/-- Python int() on a string: optional sign, then decimal digits. -/
def pyStrToInt (s : String) : Option Int :=
  match s.data with
  | '-' :: rest => (charsToNat? rest).map (fun n => -(n : Int))
  | '+' :: rest => (charsToNat? rest).map (fun n => (n : Int))
  | cs => (charsToNat? cs).map (fun n => (n : Int))

/-- Python int() of a scalar value, None when it raises. -/
def pyToInt : Value → Option Int
  | .vnull => none
  | .vint n => some n
  | .vstr s => pyStrToInt s

/-- A character matched by `[A-Za-z_]`. -/
def isIdentStart (c : Char) : Bool := c.isAlpha || c == '_'

/-- A character matched by `[A-Za-z0-9_]`. -/
def isIdentChar (c : Char) : Bool := c.isAlpha || c.isDigit || c == '_'

/-- Whole-string match of `[A-Za-z_][A-Za-z0-9_]*`. -/
def identSyntax (s : String) : Bool :=
  match s.data with
  | [] => false
  | c :: cs => isIdentStart c && cs.all isIdentChar

/-- Python re.match of the anchored pattern `^[A-Za-z_][A-Za-z0-9_]*$`:
the `$` anchor also matches just before one trailing newline. -/
def reMatchIdent (s : String) : Bool :=
  identSyntax s || (strEndsWith s "\n" && identSyntax (strDropRight s 1))

/-- Python exception values as far as the service classifies them. -/
structure PyExc where
  isTimeout : Bool
  isDBAPI : Bool
  msg : String
deriving BEq, DecidableEq, Repr

/-- Exceptions raised by the repository layer: ValueError with its message,
or a propagated driver/pool error. -/
inductive PyErr where
  | valueError (msg : String)
  | dbError (exc : PyExc)
deriving BEq, DecidableEq, Repr

/-- _safe_identifier: raise ValueError unless the name passes the
identifier regex check. -/
def safeIdentifier (name : String) : Except PyErr String :=
  if reMatchIdent name then Except.ok name
  else Except.error (PyErr.valueError ("unsafe identifier: " ++ name))

/-- Validation of a list of identifiers in order, as the column
comprehensions of the source do. -/
def validateIdents : List String → Except PyErr Unit
  | [] => Except.ok ()
  | c :: cs =>
    match safeIdentifier c with
    | Except.error e => Except.error e
    | Except.ok _ => validateIdents cs

/-- One form field declaration; name "" models an absent/falsy name. -/
structure FieldCfg where
  name : String
  label : Option String
  ftype : String
  required : Bool
deriving BEq, DecidableEq, Repr

/-- One form section. -/
structure SectionCfg where
  fields : List FieldCfg
deriving BEq, DecidableEq, Repr

/-- One list column declaration; name "" models an absent/falsy name. -/
structure ColumnCfg where
  name : String
deriving BEq, DecidableEq, Repr

/-- The list view configuration of an entity. -/
structure ListCfg where
  columns : List ColumnCfg
  default_sort : Option String
  page_size : Option Int
deriving BEq, DecidableEq, Repr

/-- The form configuration of an entity. -/
structure FormCfg where
  sections : List SectionCfg
deriving BEq, DecidableEq, Repr

/-- A normalized entity configuration; primary_key "" models a falsy value. -/
structure Entity where
  table : String
  primary_key : String
  list : ListCfg
  form : FormCfg
deriving BEq, DecidableEq, Repr

/-- Nonempty names of the list columns of an entity, in order. -/
def listColumnNames (e : Entity) : List String :=
  e.list.columns.filterMap (fun c => if c.name == "" then none else some c.name)

/-- Nonempty names of all declared form fields, across sections, in order. -/
def formFieldNames (e : Entity) : List String :=
  (e.form.sections.map (fun s =>
    s.fields.filterMap (fun f => if f.name == "" then none else some f.name))).flatten

/-- Order-preserving de-duplicating append of list column names, as the
loop of _select_columns. -/
def dedupAppend (acc : List String) : List ColumnCfg → List String
  | [] => acc
  | c :: cs =>
    dedupAppend (if c.name != "" && !(acc.contains c.name) then acc ++ [c.name] else acc) cs

/-- _select_columns: the primary key followed by the list columns,
de-duplicated, with the fallback `cols or [pk or "id"]`. -/
def selectColumns (e : Entity) : List String :=
  let base := if e.primary_key != "" then [e.primary_key] else []
  let cols := dedupAppend base e.list.columns
  if cols.isEmpty then (if e.primary_key == "" then ["id"] else [e.primary_key]) else cols

/-- _allowed_fields: the save whitelist, a Python set holding the primary
key, every form field name and every list column name.  Only membership in
the set is ever used, so it is modelled as a concatenation. -/
def allowedFields (e : Entity) : List String :=
  (if e.primary_key != "" then [e.primary_key] else []) ++ formFieldNames e ++ listColumnNames e

/-- Truthiness of an optional string argument. -/
def optTruthy : Option String → Bool
  | none => false
  | some s => s != ""

/-- _resolve_sort: leading "-" means descending; a target column not among
the selected columns falls back to the default sort, then to the first
selected column, resetting the direction to ascending. -/
def resolveSort (sort : Option String) (columns : List String) (defaultSort : Option String) :
    Option String × String :=
  let col := if optTruthy sort then sort else defaultSort
  match col with
  | none => (none, "ASC")
  | some c =>
    if c == "" then (some c, "ASC")
    else
      let dir := if strStartsWith c "-" then "DESC" else "ASC"
      let c1 := if strStartsWith c "-" then strDrop c 1 else c
      if columns.contains c1 then (some c1, dir)
      else
        let fb := match defaultSort with
          | some d => if columns.contains d then some d else columns.head?
          | none => columns.head?
        (fb, "ASC")

/-- A SQL statement as built by the repository through SQLAlchemy Core. -/
inductive Stmt where
  | selectStmt (table : String) (cols : List String) (whereEq : Option (String × Value))
      (whereLike : Option (String × String)) (orderBy : Option (String × String))
      (limit : Option Int) (offset : Option Int)
  | insertStmt (table : String) (fields : List (String × Value))
  | updateStmt (table : String) (sets : List (String × Value)) (whereCol : String)
      (whereVal : Value)
  | rawStmt (sql : String)
deriving BEq, DecidableEq, Repr

/-- The database and connection-pool state threaded through repository
operations: the committed rows of the entity table, the autoincrement
counter used for lastrowid, the number of currently held connections with
its high-water mark, the log of executed statements (with the literal_binds
flag each was compiled with), and optional injected faults standing for
driver/pool exceptions. -/
structure DBState where
  rows : List Payload
  nextId : Int
  acquired : Nat
  maxAcquired : Nat
  sqlLog : List (Stmt × Bool)
  connectFault : Option PyExc
  execFault : Option PyExc
deriving BEq, DecidableEq, Repr

/-- db.get_connection: raises the injected pool fault, otherwise hands out
one more connection. -/
def getConnection (st : DBState) : Except PyErr DBState :=
  match st.connectFault with
  | some exc => Except.error (PyErr.dbError exc)
  | none =>
    Except.ok { st with acquired := st.acquired + 1,
                        maxAcquired := max st.maxAcquired (st.acquired + 1) }

/-- db.release_connection: return the connection to the pool. -/
def releaseConn (st : DBState) : DBState :=
  { st with acquired := st.acquired - 1 }

/-- cursor.execute of a compiled statement: raises the injected driver
fault, otherwise records the executed call. -/
def execStmt (st : DBState) (call : Stmt × Bool) : Except PyErr DBState :=
  match st.execFault with
  | some exc => Except.error (PyErr.dbError exc)
  | none => Except.ok { st with sqlLog := st.sqlLog ++ [call] }

/-- SQL equality used in WHERE clauses (NULL compares unequal to
everything). -/
def sqlEq (a b : Value) : Bool :=
  a != Value.vnull && b != Value.vnull && a == b

/-- Whether a stored row matches `pkName = pk`. -/
def rowMatchesPk (r : Payload) (pkName : String) (pk : Value) : Bool :=
  match pget r pkName with
  | some v => sqlEq v pk
  | none => false

/-- Apply the SET pairs of an UPDATE to one row. -/
def applySets (r : Payload) (sets : List (String × Value)) : Payload :=
  sets.foldl (fun acc kv => pset acc kv.1 kv.2) r

/-- Total order on scalar values used to model ORDER BY. -/
def valueLe (a b : Value) : Bool :=
  match a, b with
  | .vnull, _ => true
  | _, .vnull => false
  | .vint m, .vint n => decide (m ≤ n)
  | .vint _, .vstr _ => true
  | .vstr _, .vint _ => false
  | .vstr s, .vstr t => charsLe s.data t.data
where
  charsLe : List Char → List Char → Bool
  | [], _ => true
  | _ :: _, [] => false
  | a :: as, b :: bs => if a == b then charsLe as bs else decide (a.toNat < b.toNat)

/-- Insert a row into a sorted list of rows. -/
def insertSorted (le : Payload → Payload → Bool) (x : Payload) : List Payload → List Payload
  | [] => [x]
  | y :: ys => if le x y then x :: y :: ys else y :: insertSorted le x ys

/-- ORDER BY on rows by one column and direction. -/
def sortRows (rows : List Payload) (col : String) (dir : String) : List Payload :=
  let key := fun (r : Payload) => (pget r col).getD Value.vnull
  let le := fun (a b : Payload) =>
    if dir == "DESC" then valueLe (key b) (key a) else valueLe (key a) (key b)
  rows.foldr (insertSorted le) []

/-- Project one stored row onto the selected columns, in select order, as
_rows_to_dicts does from the cursor description. -/
def projectRow (columns : List String) (r : Payload) : Payload :=
  columns.map (fun c => (c, (pget r c).getD Value.vnull))

/-- The acquire/try/finally shape shared by every repository operation:
get one connection, run the body, and release the connection on every path
(success, business error, or exception). -/
def withConn (st : DBState) (body : DBState → Except PyErr A × DBState) :
    Except PyErr A × DBState :=
  match getConnection st with
  | Except.error err => (Except.error err, st)
  | Except.ok st1 =>
    let r := body st1
    (r.1, releaseConn r.2)

/-- fetch_detail: select the entity columns filtered by primary key,
returning None when no row matches. -/
def fetchDetail (e : Entity) (pk : Value) (st : DBState) :
    Except PyErr (Option Payload) × DBState :=
  let columns := selectColumns e
  let pkName := e.primary_key
  match safeIdentifier e.table with
  | Except.error err => (Except.error err, st)
  | Except.ok _ =>
    match validateIdents columns with
    | Except.error err => (Except.error err, st)
    | Except.ok _ =>
      match safeIdentifier pkName with
      | Except.error err => (Except.error err, st)
      | Except.ok _ =>
        withConn st (fun st1 =>
          match execStmt st1
              (Stmt.selectStmt e.table columns (some (pkName, pk)) none none none none, true) with
          | Except.error err => (Except.error err, st1)
          | Except.ok st2 =>
            match st2.rows.find? (fun r => rowMatchesPk r pkName pk) with
            | none => (Except.ok none, st2)
            | some r => (Except.ok (some (projectRow columns r)), st2))

/-- fetch_list: one SELECT with ORDER BY, LIMIT and OFFSET over the entity
columns. -/
def fetchList (e : Entity) (page : Int) (pageSize : Option Int) (sort : Option String)
    (st : DBState) : Except PyErr (List Payload) × DBState :=
  let pageN := max 1 page
  let cfgSize := e.list.page_size.getD 20
  let effSize := match pageSize with
    | some n => if n == 0 then cfgSize else n
    | none => cfgSize
  let columns := selectColumns e
  let (sortCol, sortDir) := resolveSort sort columns e.list.default_sort
  match safeIdentifier e.table with
  | Except.error err => (Except.error err, st)
  | Except.ok _ =>
    match validateIdents columns with
    | Except.error err => (Except.error err, st)
    | Except.ok _ =>
      let ordCheck : Except PyErr (Option (String × String)) :=
        match sortCol with
        | some c =>
          if c == "" then Except.ok none
          else
            match safeIdentifier c with
            | Except.error err => Except.error err
            | Except.ok _ => Except.ok (some (c, sortDir))
        | none => Except.ok none
      match ordCheck with
      | Except.error err => (Except.error err, st)
      | Except.ok orderBy =>
        let off := (pageN - 1) * effSize
        let stmt := Stmt.selectStmt e.table columns none none orderBy (some effSize) (some off)
        withConn st (fun st1 =>
          match execStmt st1 (stmt, true) with
          | Except.error err => (Except.error err, st1)
          | Except.ok st2 =>
            let sorted := match orderBy with
              | some (c, d) => sortRows st2.rows c d
              | none => st2.rows
            let sliced := (sorted.drop off.toNat).take effSize.toNat
            (Except.ok (sliced.map (projectRow columns)), st2))

/-- search_lookup: LIKE search on the display column (the second selected
column, else the first), ordered ascending, capped at the limit.  The LIKE
pattern is modelled as a literal substring match on non-NULL display
values. -/
def searchLookup (e : Entity) (q : String) (limit : Int) (st : DBState) :
    Except PyErr (List Payload) × DBState :=
  let columns := selectColumns e
  let displayCol := if columns.length < 2 then columns.headD "id" else columns.getD 1 "id"
  let pkCol := columns.headD "id"
  match safeIdentifier e.table with
  | Except.error err => (Except.error err, st)
  | Except.ok _ =>
    match safeIdentifier pkCol with
    | Except.error err => (Except.error err, st)
    | Except.ok _ =>
      match safeIdentifier displayCol with
      | Except.error err => (Except.error err, st)
      | Except.ok _ =>
        let stmt := Stmt.selectStmt e.table [pkCol, displayCol] none
          (some (displayCol, "%" ++ q ++ "%")) (some (displayCol, "ASC")) (some limit) none
        withConn st (fun st1 =>
          match execStmt st1 (stmt, false) with
          | Except.error err => (Except.error err, st1)
          | Except.ok st2 =>
            let matching := st2.rows.filter (fun r =>
              match pget r displayCol with
              | some v => v != Value.vnull && strContains (pyStr v) q
              | none => false)
            let sorted := sortRows matching displayCol "ASC"
            let capped := sorted.take limit.toNat
            (Except.ok (capped.map (projectRow [pkCol, displayCol])), st2))

/-- save: INSERT or UPDATE one record.  A truthy whitelisted primary key
selects the UPDATE path; otherwise the INSERT path runs and merges the
generated primary key into the returned payload.  Writes commit on success
and are discarded on any exception; the connection is released on every
path. -/
def save (e : Entity) (payload : Payload) (st : DBState) :
    Except PyErr (Option Payload) × DBState :=
  let pkName := e.primary_key
  let allowed := allowedFields e
  let filtered := payload.filter (fun kv => allowed.contains kv.1)
  match safeIdentifier e.table with
  | Except.error err => (Except.error err, st)
  | Except.ok _ =>
    let isUpd := pmem filtered pkName && !(isFalsyRepo ((pget filtered pkName).getD Value.vnull))
    withConn st (fun st1 =>
      if isUpd then
        let pkValue := (pget filtered pkName).getD Value.vnull
        let fieldsToUpdate := filtered.filter (fun kv => kv.1 != pkName)
        if fieldsToUpdate.isEmpty then
          fetchDetail e pkValue st1
        else
          match safeIdentifier pkName with
          | Except.error err => (Except.error err, st1)
          | Except.ok _ =>
            match execStmt st1 (Stmt.updateStmt e.table fieldsToUpdate pkName pkValue, true) with
            | Except.error err => (Except.error err, st1)
            | Except.ok st2 =>
              let rowcount := (st2.rows.filter (fun r => rowMatchesPk r pkName pkValue)).length
              if rowcount == 0 then
                (Except.error (PyErr.valueError
                  ("Record with " ++ pkName ++ "=" ++ pyStr pkValue ++ " not found")), st2)
              else
                let newRows := st2.rows.map (fun r =>
                  if rowMatchesPk r pkName pkValue then applySets r fieldsToUpdate else r)
                fetchDetail e pkValue { st2 with rows := newRows }
      else
        let fields := filtered.filter (fun kv => kv.1 != pkName || !(isFalsyRepo kv.2))
        if fields.isEmpty then
          (Except.error (PyErr.valueError "No fields to insert"), st1)
        else
          match execStmt st1 (Stmt.insertStmt e.table fields, true) with
          | Except.error err => (Except.error err, st1)
          | Except.ok st2 =>
            let newIdVal := st2.nextId
            let pkFetch : Option Int × DBState :=
              if newIdVal == 0 then
                match execStmt st2 (Stmt.rawStmt "SELECT last_insert_rowid()", true) with
                | Except.ok s => (some newIdVal, s)
                | Except.error _ =>
                  match execStmt st2 (Stmt.rawStmt "SELECT last_identity()", true) with
                  | Except.ok s => (some newIdVal, s)
                  | Except.error _ => (none, st2)
              else (some newIdVal, st2)
            match pkFetch with
            | (none, st3) =>
              (Except.error (PyErr.valueError
                ("Insert succeeded but primary key could not be retrieved; " ++
                 "provide a primary key value or configure identity retrieval")), st3)
            | (some pkv, st3) =>
              let insertedRow :=
                if pkName != "" && !(pmem fields pkName) then fields ++ [(pkName, Value.vint pkv)]
                else fields
              let ret := pset filtered pkName (Value.vint pkv)
              let st4 := { st3 with rows := st3.rows ++ [insertedRow], nextId := st3.nextId + 1 }
              (Except.ok (some ret), st4))

/-- Escape a string literal for SQL by doubling single quotes. -/
def escapeSqlStr (s : String) : String :=
  String.mk (s.data.foldr (fun c acc => if c == '\x27' then c :: c :: acc else c :: acc) [])

/-- Render a value as a SQL literal, as SQLAlchemy literal_binds does. -/
def renderValue (v : Value) : String :=
  match v with
  | .vnull => "NULL"
  | .vint n => toString n
  | .vstr s => "\x27" ++ escapeSqlStr s ++ "\x27"

/-- Column reference qualified by its table, as SQLAlchemy renders it. -/
def qualCol (table c : String) : String := table ++ "." ++ c

/-- Comma-separated join. -/
def commaJoin (xs : List String) : String := String.intercalate ", " xs

/-- Render a statement as literal SQL text (the literal_binds=True
compilation): every runtime value is interpolated into the text. -/
def renderStmt : Stmt → String
  | .selectStmt table cols whereEq whereLike orderBy limit offset =>
    "SELECT " ++ commaJoin (cols.map (qualCol table)) ++ " FROM " ++ table ++
    (match whereEq with
     | some (c, v) => " WHERE " ++ qualCol table c ++ " = " ++ renderValue v
     | none => "") ++
    (match whereLike with
     | some (c, pat) => " WHERE " ++ qualCol table c ++ " LIKE " ++ renderValue (Value.vstr pat)
     | none => "") ++
    (match orderBy with
     | some (c, dir) => " ORDER BY " ++ qualCol table c ++ " " ++ dir
     | none => "") ++
    (match limit with
     | some n => " LIMIT " ++ toString n
     | none => "") ++
    (match offset with
     | some n => " OFFSET " ++ toString n
     | none => "")
  | .insertStmt table fields =>
    "INSERT INTO " ++ table ++ " (" ++ commaJoin (fields.map (fun kv => kv.1)) ++ ") VALUES (" ++
    commaJoin (fields.map (fun kv => renderValue kv.2)) ++ ")"
  | .updateStmt table sets whereCol whereVal =>
    "UPDATE " ++ table ++ " SET " ++
    commaJoin (sets.map (fun kv => kv.1 ++ " = " ++ renderValue kv.2)) ++
    " WHERE " ++ qualCol table whereCol ++ " = " ++ renderValue whereVal
  | .rawStmt sql => sql

/-- Render a statement in qmark parameter style (the literal_binds=False
compilation): values become "?" placeholders collected into the parameter
tuple, in order of appearance. -/
def renderStmtParams : Stmt → String × List Value
  | .selectStmt table cols whereEq whereLike orderBy limit offset =>
    let likePart := match whereLike with
      | some (c, pat) => (" WHERE " ++ qualCol table c ++ " LIKE ?", [Value.vstr pat])
      | none => ("", [])
    let ordPart := match orderBy with
      | some (c, dir) => " ORDER BY " ++ qualCol table c ++ " " ++ dir
      | none => ""
    let limPart := match limit with
      | some n => (" LIMIT ?", [Value.vint n])
      | none => ("", [])
    let offPart := match offset with
      | some n => (" OFFSET ?", [Value.vint n])
      | none => ("", [])
    let eqPart := match whereEq with
      | some (c, v) => (" WHERE " ++ qualCol table c ++ " = ?", [v])
      | none => ("", [])
    ("SELECT " ++ commaJoin (cols.map (qualCol table)) ++ " FROM " ++ table ++
       eqPart.1 ++ likePart.1 ++ ordPart ++ limPart.1 ++ offPart.1,
     eqPart.2 ++ likePart.2 ++ limPart.2 ++ offPart.2)
  | .insertStmt table fields =>
    ("INSERT INTO " ++ table ++ " (" ++ commaJoin (fields.map (fun kv => kv.1)) ++
       ") VALUES (" ++ commaJoin (fields.map (fun _ => "?")) ++ ")",
     fields.map (fun kv => kv.2))
  | .updateStmt table sets whereCol whereVal =>
    ("UPDATE " ++ table ++ " SET " ++
       commaJoin (sets.map (fun kv => kv.1 ++ " = ?")) ++
       " WHERE " ++ qualCol table whereCol ++ " = ?",
     sets.map (fun kv => kv.2) ++ [whereVal])
  | .rawStmt sql => (sql, [])

/-- The (sql text, parameters) pair handed to cursor.execute by
_execute_compiled for one logged call: literal_binds=True inlines every
value and passes no parameters; literal_binds=False passes placeholders
with the positional parameter tuple. -/
def renderExec (call : Stmt × Bool) : String × List Value :=
  if call.2 then (renderStmt call.1, []) else renderStmtParams call.1

/-- The render context returned by the service layer, restricted to the
fields the claims are about. -/
structure Ctx where
  ok : Bool
  status : Int
  error : Option String := none
  entity : Option Entity := none
  record : Option Payload := none
  mode : String := ""
  form : Option FormCfg := none
  errors : List (String × String) := []
deriving BEq, DecidableEq, Repr

/-- _missing_entity: the 404 context for an unknown entity name. -/
def missingEntity (entityName : String) (mode : String) : Ctx :=
  { ok := false, status := 404,
    error := some ("Unknown entity \x27" ++ entityName ++ "\x27"),
    entity := none, mode := mode }

/-- The generic Japanese 503 message of _error_context. -/
def serviceUnavailableMsg : String := "サービスが一時的に利用できません"

/-- _error_context: 503 with a generic message for pool/timeout errors,
otherwise the provided status with str(exc) as the message. -/
def errorContext (entity : Option Entity) (mode : String) (exc : PyExc) (status : Int) : Ctx :=
  if (exc.isTimeout || exc.isDBAPI) &&
     (strContains exc.msg "QueuePool" || strContains (pyLower exc.msg) "timeout" ||
      strContains (pyLower exc.msg) "pool") then
    { ok := false, status := 503, error := some serviceUnavailableMsg,
      entity := entity, mode := mode }
  else
    { ok := false, status := status, error := some exc.msg, entity := entity, mode := mode }

/-- _validate_field: required fields must be present and non-empty; email
fields, when non-empty, must contain "@" and a "." after the last "@". -/
def validateField (f : FieldCfg) (value : Value) : Option String :=
  let label := f.label.getD f.name
  if f.required && (value == Value.vnull || value == Value.vstr "") then
    some (label ++ " is required")
  else if value == Value.vnull || value == Value.vstr "" then none
  else if f.ftype == "email" then
    if !(strContains (pyStr value) "@") || !(strContains (afterLastAt (pyStr value)) ".") then
      some (label ++ " must be a valid email address")
    else none
  else none

/-- The validation loop of handle_save: every named form field is checked
against the payload, failures collected into the errors mapping. -/
def collectErrors (e : Entity) (payload : Payload) : List (String × String) :=
  e.form.sections.foldl (fun acc s =>
    s.fields.foldl (fun acc f =>
      if f.name == "" then acc
      else
        match validateField f ((pget payload f.name).getD Value.vnull) with
        | some msg => eset acc f.name msg
        | none => acc) acc) []

/-- The whitelist handle_save filters the payload with: the primary key
plus every named form field (a Python set; membership only). -/
def svcAllowedFields (e : Entity) : List String :=
  e.primary_key :: formFieldNames e

/-- handle_save: validate, convert a truthy primary key to int in place in
the caller payload, filter to the service whitelist, delegate to save, and
classify the outcome.  Returns the context, the payload mapping as the
caller observes it afterwards, and the database state. -/
def handleSave (entities : List (String × Entity)) (entityName : String) (payload : Payload)
    (st : DBState) : Ctx × Payload × DBState :=
  match entities.find? (fun kv => kv.1 == entityName) with
  | none => (missingEntity entityName "edit", payload, st)
  | some (_, e) =>
    let pkName := e.primary_key
    let isUpd := pmem payload pkName && !(isFalsySvc ((pget payload pkName).getD Value.vnull))
    let mode := if isUpd then "edit" else "create"
    let errors := collectErrors e payload
    if !errors.isEmpty then
      ({ ok := false, status := 400, entity := some e, record := some payload,
         mode := mode, form := some e.form, errors := errors }, payload, st)
    else
      let payload2 :=
        if isUpd && pmem payload pkName then
          match pyToInt ((pget payload pkName).getD Value.vnull) with
          | some n => pset payload pkName (Value.vint n)
          | none => payload
        else payload
      let filtered := payload2.filter (fun kv => (svcAllowedFields e).contains kv.1)
      match save e filtered st with
      | (Except.error (PyErr.valueError msg), st2) =>
        ({ ok := false, status := 404, error := some msg, entity := some e,
           record := some filtered, mode := mode }, payload2, st2)
      | (Except.error (PyErr.dbError exc), st2) =>
        (errorContext (some e) mode exc 500, payload2, st2)
      | (Except.ok rec, st2) =>
        ({ ok := true, status := 200, entity := some e, record := rec,
           mode := "view" }, payload2, st2)

/-- All column names appearing in a statement (selected columns, WHERE and
ORDER BY targets, INSERT columns, UPDATE SET targets). -/
def stmtCols : Stmt → List String
  | .selectStmt _ cols whereEq whereLike orderBy _ _ =>
    cols ++ (whereEq.map Prod.fst).toList ++ (whereLike.map Prod.fst).toList ++
      (orderBy.map Prod.fst).toList
  | .insertStmt _ fields => fields.map Prod.fst
  | .updateStmt _ sets c _ => sets.map Prod.fst ++ [c]
  | .rawStmt _ => []

/-- The sort target column: the sort argument with one leading "-"
stripped. -/
def stripDash (s : String) : String :=
  if strStartsWith s "-" then strDrop s 1 else s

/-- The save whitelist exactly as the specification words it, for
comparison with the source whitelist `allowedFields`: the union of the
primary key name and the field names declared across all form.sections
(no list-column fallback). -/
def specSaveWhitelist (e : Entity) : List String :=
  e.primary_key :: formFieldNames e

/-- A customer-like form: a required text field and a required email
field. -/
def custForm : FormCfg :=
  { sections := [ { fields := [
      { name := "name", label := some "Name", ftype := "text", required := true },
      { name := "email", label := some "Email", ftype := "email", required := true } ] } ] }

/-- A customer-like entity used as a concrete test vehicle, mirroring the
fixtures of the repository test suite. -/
def custEntity : Entity :=
  { table := "customers", primary_key := "id",
    list := { columns := [ { name := "id" }, { name := "name" }, { name := "email" } ],
              default_sort := some "name", page_size := some 20 },
    form := custForm }

/-- The empty initial database state with no injected faults. -/
def st0 : DBState :=
  { rows := [], nextId := 1, acquired := 0, maxAcquired := 0, sqlLog := [],
    connectFault := none, execFault := none }

/-- A state holding one customer row. -/
def stBob : DBState :=
  { st0 with
    rows := [[("id", Value.vint 1), ("name", Value.vstr "Bob"), ("email", Value.vstr "b@x.com")]],
    nextId := 2 }

/-- An entity whose list declares a column ("extra") that no form field
declares, to probe the save whitelist. -/
def entC1 : Entity :=
  { table := "widgets", primary_key := "id",
    list := { columns := [ { name := "id" }, { name := "extra" } ],
              default_sort := none, page_size := none },
    form := { sections := [ { fields := [
      { name := "name", label := none, ftype := "text", required := false } ] } ] } }

/-- An entity whose default sort carries a leading dash. -/
def entC7 : Entity :=
  { table := "customers", primary_key := "id",
    list := { columns := [ { name := "id" }, { name := "name" } ],
              default_sort := some "-name", page_size := some 20 },
    form := custForm }

/-- An entity declaring a form field whose name is not a safe SQL
identifier. -/
def entC9 : Entity :=
  { table := "widgets", primary_key := "id",
    list := { columns := [ { name := "id" } ], default_sort := none, page_size := none },
    form := { sections := [ { fields := [
      { name := "bad name", label := none, ftype := "text", required := false } ] } ] } }

/-- An operational database error that is a DBAPIError but not
pool-related, as raised by a failing driver. -/
def opError : PyExc :=
  { isTimeout := false, isDBAPI := true, msg := "(sqlite3.OperationalError) database unavailable" }

/-- A pool exhaustion error. -/
def poolError : PyExc :=
  { isTimeout := true, isDBAPI := false, msg := "QueuePool limit exceeded" }
/-- Decidable equality for Except results, used to evaluate concrete
runs. -/
instance {E A : Type} [DecidableEq E] [DecidableEq A] : DecidableEq (Except E A) := fun a b =>
  match a, b with
  | Except.ok x, Except.ok y =>
    if h : x = y then Decidable.isTrue (by rw [h]) else Decidable.isFalse (by simp [h])
  | Except.ok _, Except.error _ => Decidable.isFalse (by simp)
  | Except.error _, Except.ok _ => Decidable.isFalse (by simp)
  | Except.error x, Except.error y =>
    if h : x = y then Decidable.isTrue (by rw [h]) else Decidable.isFalse (by simp [h])

/-- An entity whose table name is an injection attempt. -/
def entBadTable : Entity :=
  { table := "a;DROP TABLE", primary_key := "id",
    list := { columns := [ { name := "id" } ], default_sort := none, page_size := none },
    form := { sections := [] } }

lemma execStmt_eq (s : DBState) (call : Stmt × Bool) :
    execStmt s call = match s.execFault with
      | some exc => Except.error (PyErr.dbError exc)
      | none => Except.ok { s with sqlLog := s.sqlLog ++ [call] } := rfl

lemma getConnection_eq (s : DBState) :
    getConnection s = match s.connectFault with
      | some exc => Except.error (PyErr.dbError exc)
      | none => Except.ok { s with acquired := s.acquired + 1, maxAcquired := max s.maxAcquired (s.acquired + 1) } := rfl

lemma withConn_acquired {A : Type} (st : DBState) (body : DBState → Except PyErr A × DBState)
    (hb : ∀ s, ((body s).2).acquired = s.acquired) :
    ((withConn st body).2).acquired = st.acquired := by
  unfold withConn
  rw [getConnection_eq]
  cases st.connectFault with
  | some exc => rfl
  | none => simp [releaseConn, hb]

lemma withConn_max {A : Type} (st : DBState) (body : DBState → Except PyErr A × DBState)
    (k : Nat)
    (hb : ∀ s, ((body s).2).maxAcquired ≤ max s.maxAcquired (s.acquired + k)) :
    ((withConn st body).2).maxAcquired ≤ max st.maxAcquired (st.acquired + 1 + k) := by
  unfold withConn
  rw [getConnection_eq]
  cases st.connectFault with
  | some exc => exact le_max_left _ _
  | none =>
    have h := hb (DBState.mk st.rows st.nextId (st.acquired + 1)
      (max st.maxAcquired (st.acquired + 1)) st.sqlLog none st.execFault)
    simp only [releaseConn]
    simp only at h
    omega

lemma withConn_rows {A : Type} (st : DBState) (body : DBState → Except PyErr A × DBState)
    (hb : ∀ s, ((body s).2).rows = s.rows) :
    ((withConn st body).2).rows = st.rows := by
  unfold withConn
  rw [getConnection_eq]
  cases st.connectFault with
  | some exc => rfl
  | none => simp [releaseConn, hb]

lemma withConn_log {A : Type} (st : DBState) (body : DBState → Except PyErr A × DBState)
    (P : Stmt × Bool → Prop)
    (hb : ∀ s call, call ∈ ((body s).2).sqlLog → call ∈ s.sqlLog ∨ P call) :
    ∀ call ∈ ((withConn st body).2).sqlLog, call ∈ st.sqlLog ∨ P call := by
  unfold withConn
  rw [getConnection_eq]
  cases st.connectFault with
  | some exc => exact fun c hc => Or.inl hc
  | none =>
    intro c hc
    simp only [releaseConn] at hc
    exact hb (DBState.mk st.rows st.nextId (st.acquired + 1)
      (max st.maxAcquired (st.acquired + 1)) st.sqlLog none st.execFault) c hc

lemma projectRow_keys (cols : List String) (r : Payload) (kv : String × Value)
    (h : kv ∈ projectRow cols r) : kv.1 ∈ cols := by
  unfold projectRow at h
  rcases List.mem_map.mp h with ⟨c, hc, rfl⟩
  exact hc

lemma fetchDetail_acquired (e : Entity) (pk : Value) (st : DBState) :
    ((fetchDetail e pk st).2).acquired = st.acquired := by
  simp only [fetchDetail]
  split
  · rfl
  · split
    · rfl
    · split
      · rfl
      · apply withConn_acquired
        intro s
        rw [execStmt_eq]
        cases s.execFault with
        | some exc => rfl
        | none =>
          simp only []
          split <;> rfl

lemma fetchDetail_max (e : Entity) (pk : Value) (st : DBState) :
    ((fetchDetail e pk st).2).maxAcquired ≤ max st.maxAcquired (st.acquired + 1) := by
  simp only [fetchDetail]
  split
  · exact le_max_left _ _
  · split
    · exact le_max_left _ _
    · split
      · exact le_max_left _ _
      · refine le_trans (withConn_max st _ 0 ?_) (by simp)
        intro s
        rw [execStmt_eq]
        cases s.execFault with
        | some exc => exact le_max_left _ _
        | none =>
          simp only []
          split <;> exact le_max_left _ _

lemma fetchDetail_rows (e : Entity) (pk : Value) (st : DBState) :
    ((fetchDetail e pk st).2).rows = st.rows := by
  simp only [fetchDetail]
  split
  · rfl
  · split
    · rfl
    · split
      · rfl
      · apply withConn_rows
        intro s
        rw [execStmt_eq]
        cases s.execFault with
        | some exc => rfl
        | none =>
          simp only []
          split <;> rfl

lemma fetchDetail_log (e : Entity) (pk : Value) (st : DBState) :
    ∀ call ∈ ((fetchDetail e pk st).2).sqlLog, call ∈ st.sqlLog ∨
      call = (Stmt.selectStmt e.table (selectColumns e) (some (e.primary_key, pk))
                none none none none, true) := by
  simp only [fetchDetail]
  split
  · exact fun c hc => Or.inl hc
  · split
    · exact fun c hc => Or.inl hc
    · split
      · exact fun c hc => Or.inl hc
      · apply withConn_log
        intro s c hc
        rw [execStmt_eq] at hc
        cases hef : s.execFault with
        | some exc => rw [hef] at hc; exact Or.inl hc
        | none =>
          rw [hef] at hc
          simp only [] at hc
          split at hc
          · simp only [] at hc
            rcases List.mem_append.mp hc with h1 | h1
            · exact Or.inl h1
            · exact Or.inr (List.mem_singleton.mp h1)
          · simp only [] at hc
            rcases List.mem_append.mp hc with h1 | h1
            · exact Or.inl h1
            · exact Or.inr (List.mem_singleton.mp h1)

lemma fetchDetail_ok_keys (e : Entity) (pk : Value) (st : DBState) (rec : Payload)
    (h : (fetchDetail e pk st).1 = Except.ok (some rec)) :
    ∀ kv ∈ rec, kv.1 ∈ selectColumns e := by
  simp only [fetchDetail] at h
  split at h
  · exact absurd h (by simp)
  · split at h
    · exact absurd h (by simp)
    · split at h
      · exact absurd h (by simp)
      · unfold withConn at h
        rw [getConnection_eq] at h
        cases hcf : st.connectFault with
        | some exc => rw [hcf] at h; exact absurd h (by simp)
        | none =>
          rw [hcf] at h
          simp only [] at h
          rw [execStmt_eq] at h
          cases hef : st.execFault with
          | some exc => rw [hef] at h; exact absurd h (by simp)
          | none =>
            rw [hef] at h
            simp only [] at h
            split at h
            · exact absurd h (by simp)
            · simp only [Except.ok.injEq, Option.some.injEq] at h
              subst h
              exact fun kv hkv => projectRow_keys _ _ _ hkv

lemma fetchList_acquired (e : Entity) (page : Int) (pageSize : Option Int) (sort : Option String)
    (st : DBState) : ((fetchList e page pageSize sort st).2).acquired = st.acquired := by
  simp only [fetchList]
  split
  · rfl
  · split
    · rfl
    · split
      · rfl
      · apply withConn_acquired
        intro s
        rw [execStmt_eq]
        cases s.execFault with
        | some exc => rfl
        | none => rfl

lemma fetchList_max (e : Entity) (page : Int) (pageSize : Option Int) (sort : Option String)
    (st : DBState) :
    ((fetchList e page pageSize sort st).2).maxAcquired ≤ max st.maxAcquired (st.acquired + 1) := by
  simp only [fetchList]
  split
  · exact le_max_left _ _
  · split
    · exact le_max_left _ _
    · split
      · exact le_max_left _ _
      · refine le_trans (withConn_max st _ 0 ?_) (by simp)
        intro s
        rw [execStmt_eq]
        cases s.execFault with
        | some exc => exact le_max_left _ _
        | none => exact le_max_left _ _

lemma searchLookup_acquired (e : Entity) (q : String) (limit : Int) (st : DBState) :
    ((searchLookup e q limit st).2).acquired = st.acquired := by
  simp only [searchLookup]
  split
  · rfl
  · split
    · rfl
    · split
      · rfl
      · apply withConn_acquired
        intro s
        rw [execStmt_eq]
        cases s.execFault with
        | some exc => rfl
        | none => rfl

lemma searchLookup_max (e : Entity) (q : String) (limit : Int) (st : DBState) :
    ((searchLookup e q limit st).2).maxAcquired ≤ max st.maxAcquired (st.acquired + 1) := by
  simp only [searchLookup]
  split
  · exact le_max_left _ _
  · split
    · exact le_max_left _ _
    · split
      · exact le_max_left _ _
      · refine le_trans (withConn_max st _ 0 ?_) (by simp)
        intro s
        rw [execStmt_eq]
        cases s.execFault with
        | some exc => exact le_max_left _ _
        | none => exact le_max_left _ _

lemma save_acquired (e : Entity) (payload : Payload) (st : DBState) :
    ((save e payload st).2).acquired = st.acquired := by
  simp only [save]
  split
  · rfl
  · apply withConn_acquired
    intro s
    split
    · split
      · exact fetchDetail_acquired _ _ _
      · split
        · rfl
        · rw [execStmt_eq]
          cases s.execFault with
          | some exc => rfl
          | none =>
            simp only []
            split
            · rfl
            · rw [fetchDetail_acquired]
    · split
      · rfl
      · rw [execStmt_eq]
        cases hef : s.execFault with
        | some exc => rfl
        | none =>
          simp only []
          split
          · rename_i st3 heq
            split at heq
            · simp only [execStmt_eq] at heq
              simp at heq
            · simp at heq
          · rename_i pkv st3 heq
            split at heq
            · simp only [execStmt_eq] at heq
              simp at heq
              obtain ⟨h1, h2⟩ := heq
              subst h2
              rfl
            · simp at heq
              obtain ⟨h1, h2⟩ := heq
              subst h2
              rfl

lemma save_max (e : Entity) (payload : Payload) (st : DBState) :
    ((save e payload st).2).maxAcquired ≤ max st.maxAcquired (st.acquired + 2) := by
  simp only [save]
  split
  · exact le_max_left _ _
  · refine le_trans (withConn_max st _ 1 ?_) (by simp [Nat.add_assoc])
    intro s
    split
    · split
      · exact fetchDetail_max _ _ _
      · split
        · exact le_max_left _ _
        · rw [execStmt_eq]
          cases s.execFault with
          | some exc => exact le_max_left _ _
          | none =>
            simp only []
            split
            · exact le_max_left _ _
            · refine le_trans (fetchDetail_max _ _ _) ?_
              simp
    · split
      · exact le_max_left _ _
      · rw [execStmt_eq]
        cases hef : s.execFault with
        | some exc => exact le_max_left _ _
        | none =>
          simp only []
          split
          · rename_i st3 heq
            split at heq
            · simp only [execStmt_eq] at heq
              simp at heq
            · simp at heq
          · rename_i pkv st3 heq
            split at heq
            · simp only [execStmt_eq] at heq
              simp at heq
              obtain ⟨h1, h2⟩ := heq
              subst h2
              exact le_max_left _ _
            · simp at heq
              obtain ⟨h1, h2⟩ := heq
              subst h2
              exact le_max_left _ _

lemma mem_of_contains_filter (allowed : List String) (payload : Payload) (kv : String × Value)
    (h : kv ∈ payload.filter (fun kv => allowed.contains kv.1)) : kv.1 ∈ allowed :=
  List.elem_iff.mp (List.mem_filter.mp h).2

lemma pk_mem_allowedFields (e : Entity) (hpk : e.primary_key ≠ "") :
    e.primary_key ∈ allowedFields e := by
  simp [allowedFields, hpk]

lemma mem_dedupAppend (l : List ColumnCfg) (acc : List String) (x : String)
    (h : x ∈ dedupAppend acc l) : x ∈ acc ∨ ∃ c ∈ l, x = c.name ∧ c.name ≠ "" := by
  induction l generalizing acc with
  | nil => exact Or.inl h
  | cons c cs ih =>
    simp only [dedupAppend] at h
    rcases ih _ h with h1 | ⟨c2, hc2, hx, hne⟩
    · split at h1
      · rcases List.mem_append.mp h1 with h2 | h2
        · exact Or.inl h2
        · rename_i hcond
          refine Or.inr ⟨c, List.mem_cons_self _ _, List.mem_singleton.mp h2, ?_⟩
          have := (Bool.and_eq_true _ _).mp hcond
          exact bne_iff_ne.mp this.1
      · exact Or.inl h1
    · exact Or.inr ⟨c2, List.mem_cons_of_mem _ hc2, hx, hne⟩

lemma mem_dedupAppend_of_acc (l : List ColumnCfg) (acc : List String) (x : String)
    (h : x ∈ acc) : x ∈ dedupAppend acc l := by
  induction l generalizing acc with
  | nil => exact h
  | cons c cs ih =>
    simp only [dedupAppend]
    apply ih
    split
    · exact List.mem_append_left _ h
    · exact h

lemma mem_listColumnNames (e : Entity) (c : ColumnCfg) (hc : c ∈ e.list.columns)
    (hne : c.name ≠ "") : c.name ∈ listColumnNames e := by
  unfold listColumnNames
  refine List.mem_filterMap.mpr ⟨c, hc, ?_⟩
  simp [hne]

lemma selectColumns_sub_allowed (e : Entity) (hpk : e.primary_key ≠ "") (x : String)
    (hx : x ∈ selectColumns e) : x ∈ allowedFields e := by
  unfold selectColumns at hx
  have hbeq : (e.primary_key != "") = true := bne_iff_ne.mpr hpk
  rw [if_pos hbeq] at hx
  have hne : dedupAppend [e.primary_key] e.list.columns ≠ [] :=
    List.ne_nil_of_mem (mem_dedupAppend_of_acc _ _ _ (List.mem_singleton_self _))
  rw [if_neg (by simpa [List.isEmpty_iff] using hne)] at hx
  rcases mem_dedupAppend _ _ _ hx with h1 | ⟨c, hc, hxc, hcne⟩
  · rw [List.mem_singleton.mp h1]
    exact pk_mem_allowedFields e hpk
  · subst hxc
    unfold allowedFields
    exact List.mem_append_right _ (mem_listColumnNames e c hc hcne)

lemma mem_pset (p : Payload) (k : String) (v : Value) (kv : String × Value)
    (h : kv ∈ pset p k v) : kv = (k, v) ∨ kv ∈ p := by
  unfold pset at h
  split at h
  · rcases List.mem_map.mp h with ⟨x, hx, hfx⟩
    have hfx2 : (if (x.1 == k) = true then (k, v) else x) = kv := hfx
    split at hfx2
    · exact Or.inl hfx2.symm
    · exact Or.inr (hfx2 ▸ hx)
  · rcases List.mem_append.mp h with h1 | h1
    · exact Or.inr h1
    · exact Or.inl (List.mem_singleton.mp h1)

lemma selectStmt_cols_allowed (e : Entity) (hpk : e.primary_key ≠ "") (pkv : Value) :
    ∀ c ∈ stmtCols (Stmt.selectStmt e.table (selectColumns e) (some (e.primary_key, pkv))
        none none none none), c ∈ allowedFields e := by
  intro c hc
  simp only [stmtCols, Option.map_some', Option.map_none', Option.toList_some,
    Option.toList_none, List.append_nil, List.mem_append, List.mem_singleton] at hc
  rcases hc with hc | hc
  · exact selectColumns_sub_allowed e hpk c hc
  · exact hc ▸ pk_mem_allowedFields e hpk

lemma filtered_keys_allowed (e : Entity) (payload : Payload) (p : String × Value → Bool)
    (c : String)
    (hc : c ∈ ((payload.filter (fun kv => (allowedFields e).contains kv.1)).filter p).map
      Prod.fst) : c ∈ allowedFields e := by
  rcases List.mem_map.mp hc with ⟨kv, hkv, rfl⟩
  exact mem_of_contains_filter _ _ _ (List.mem_filter.mp hkv).1

lemma insertStmt_cols_allowed (e : Entity) (payload : Payload) (p : String × Value → Bool) :
    ∀ c ∈ stmtCols (Stmt.insertStmt e.table
      ((payload.filter (fun kv => (allowedFields e).contains kv.1)).filter p)),
      c ∈ allowedFields e := by
  intro c hc
  simp only [stmtCols] at hc
  exact filtered_keys_allowed e payload _ c hc

lemma updateStmt_cols_allowed (e : Entity) (payload : Payload) (p : String × Value → Bool)
    (hpk : e.primary_key ≠ "") (pkv : Value) :
    ∀ c ∈ stmtCols (Stmt.updateStmt e.table
      ((payload.filter (fun kv => (allowedFields e).contains kv.1)).filter p)
      e.primary_key pkv), c ∈ allowedFields e := by
  intro c hc
  simp only [stmtCols, List.mem_append, List.mem_singleton] at hc
  rcases hc with hc | hc
  · exact filtered_keys_allowed e payload _ c hc
  · exact hc ▸ pk_mem_allowedFields e hpk

lemma save_log (e : Entity) (payload : Payload) (st : DBState) (hpk : e.primary_key ≠ "") :
    ∀ call ∈ ((save e payload st).2).sqlLog, call ∈ st.sqlLog ∨
      ∀ c ∈ stmtCols call.1, c ∈ allowedFields e := by
  simp only [save]
  split
  · exact fun c hc => Or.inl hc
  · apply withConn_log
    intro s call hcall
    split at hcall
    · -- UPDATE path
      split at hcall
      · rcases fetchDetail_log _ _ _ call hcall with h | h
        · exact Or.inl h
        · refine Or.inr ?_
          rw [h]
          exact selectStmt_cols_allowed e hpk _
      · split at hcall
        · exact Or.inl hcall
        · rw [execStmt_eq] at hcall
          cases hef : s.execFault with
          | some exc => rw [hef] at hcall; exact Or.inl hcall
          | none =>
            rw [hef] at hcall
            dsimp only [] at hcall
            split at hcall
            · dsimp only [] at hcall
              rcases List.mem_append.mp hcall with h | h
              · exact Or.inl h
              · refine Or.inr ?_
                rw [List.mem_singleton.mp h]
                exact updateStmt_cols_allowed e payload _ hpk _
            · rcases fetchDetail_log _ _ _ call hcall with h | h
              · dsimp only [] at h
                rcases List.mem_append.mp h with h1 | h1
                · exact Or.inl h1
                · refine Or.inr ?_
                  rw [List.mem_singleton.mp h1]
                  exact updateStmt_cols_allowed e payload _ hpk _
              · refine Or.inr ?_
                rw [h]
                exact selectStmt_cols_allowed e hpk _
    · -- INSERT path
      split at hcall
      · exact Or.inl hcall
      · rw [execStmt_eq] at hcall
        cases hef : s.execFault with
        | some exc => rw [hef] at hcall; exact Or.inl hcall
        | none =>
          rw [hef] at hcall
          dsimp only [] at hcall
          split at hcall
          · rename_i st3 heq
            split at heq
            · rw [execStmt_eq] at heq
              dsimp only [] at heq
              exact absurd heq (by simp)
            · exact absurd heq (by simp)
          · rename_i pkv st3 heq
            split at heq
            · rw [execStmt_eq] at heq
              dsimp only [] at heq
              rw [Prod.mk.injEq] at heq
              obtain ⟨h1, h2⟩ := heq
              subst h2
              dsimp only [] at hcall
              rcases List.mem_append.mp hcall with h | h
              · rcases List.mem_append.mp h with h3 | h3
                · exact Or.inl h3
                · refine Or.inr ?_
                  rw [List.mem_singleton.mp h3]
                  exact insertStmt_cols_allowed e payload _
              · refine Or.inr ?_
                rw [List.mem_singleton.mp h]
                intro c hc
                simp [stmtCols] at hc
            · rw [Prod.mk.injEq] at heq
              obtain ⟨h1, h2⟩ := heq
              subst h2
              dsimp only [] at hcall
              rcases List.mem_append.mp hcall with h | h
              · exact Or.inl h
              · refine Or.inr ?_
                rw [List.mem_singleton.mp h]
                exact insertStmt_cols_allowed e payload _

lemma withConn_fst {A : Type} (st : DBState) (body : DBState → Except PyErr A × DBState)
    (P : Except PyErr A → Prop) (herr : ∀ err, P (Except.error err))
    (hb : ∀ s, P ((body s).1)) : P ((withConn st body).1) := by
  unfold withConn
  rw [getConnection_eq]
  cases st.connectFault with
  | some exc => exact herr _
  | none => exact hb _

lemma save_ok_keys (e : Entity) (payload : Payload) (st : DBState) (hpk : e.primary_key ≠ "") :
    ∀ rec, (save e payload st).1 = Except.ok (some rec) → ∀ kv ∈ rec, kv.1 ∈ allowedFields e := by
  simp only [save]
  split
  · intro rec h
    exact absurd h (by simp)
  · refine withConn_fst st _
      (fun (r : Except PyErr (Option Payload)) =>
        ∀ rec : Payload, r = Except.ok (some rec) →
          ∀ kv : String × Value, kv ∈ rec → kv.1 ∈ allowedFields e)
      (fun err rec h => absurd h (by simp)) ?_
    intro s
    split
    · -- UPDATE path
      split
      · intro rec h kv hkv
        exact selectColumns_sub_allowed e hpk _ (fetchDetail_ok_keys _ _ _ _ h kv hkv)
      · split
        · intro rec h
          exact absurd h (by simp)
        · rw [execStmt_eq]
          cases hef : s.execFault with
          | some exc =>
            intro rec h
            exact absurd h (by simp)
          | none =>
            dsimp only []
            split
            · intro rec h
              exact absurd h (by simp)
            · intro rec h kv hkv
              exact selectColumns_sub_allowed e hpk _ (fetchDetail_ok_keys _ _ _ _ h kv hkv)
    · -- INSERT path
      split
      · intro rec h
        exact absurd h (by simp)
      · rw [execStmt_eq]
        cases hef : s.execFault with
        | some exc =>
          intro rec h
          exact absurd h (by simp)
        | none =>
          dsimp only []
          split
          · intro rec h
            exact absurd h (by simp)
          · rename_i pkv st3 heq
            intro rec h
            simp only [Except.ok.injEq, Option.some.injEq] at h
            subst h
            intro kv hkv
            rcases mem_pset _ _ _ _ hkv with h1 | h1
            · rw [h1]
              exact pk_mem_allowedFields e hpk
            · exact mem_of_contains_filter _ _ _ h1

lemma safeIdentifier_ok (n : String) (h : reMatchIdent n = true) :
    safeIdentifier n = Except.ok n := by
  simp [safeIdentifier, h]

lemma safeIdentifier_err (n : String) (h : reMatchIdent n = false) :
    safeIdentifier n = Except.error (PyErr.valueError ("unsafe identifier: " ++ n)) := by
  simp [safeIdentifier, h]

lemma releaseConn_rows (s : DBState) : (releaseConn s).rows = s.rows := rfl

lemma fetchDetail_not_found (e : Entity) (pk : Value) (s : DBState)
    (htable : reMatchIdent e.table = true)
    (hcols : validateIdents (selectColumns e) = Except.ok ())
    (hpkid : reMatchIdent e.primary_key = true)
    (hconn : s.connectFault = none)
    (hexec : s.execFault = none)
    (hfind : s.rows.find? (fun r => rowMatchesPk r e.primary_key pk) = none) :
    (fetchDetail e pk s).1 = Except.ok none := by
  simp only [fetchDetail]
  rw [safeIdentifier_ok _ htable, hcols, safeIdentifier_ok _ hpkid]
  try dsimp only []
  unfold withConn
  rw [getConnection_eq, hconn]
  try dsimp only []
  rw [execStmt_eq]
  try dsimp only []
  rw [hexec]
  try dsimp only []
  rw [hfind]

/-- Claim C1 (counterexample): the repository save whitelist is not limited
to the primary key plus the form-section field names.  For entC1 the key
"extra" is only a list column, lies outside the spec whitelist, and yet is
persisted and returned by save. -/
theorem c1_counterexample :
    ("extra" ∉ specSaveWhitelist entC1) ∧
    (save entC1 [("extra", Value.vstr "x")] st0).1 =
      Except.ok (some [("extra", Value.vstr "x"), ("id", Value.vint 1)]) ∧
    ((save entC1 [("extra", Value.vstr "x")] st0).2).rows =
      [[("extra", Value.vstr "x"), ("id", Value.vint 1)]] := by
  exact ⟨by decide, by decide, by decide⟩

/-- Claim C1 (amended): save persists and returns only fields in the union
of the primary key name, the form-section field names AND the list column
names (allowedFields): every key of a returned record lies in that union,
and every statement issued by save references only columns in it. -/
theorem c1_repo_whitelist (e : Entity) (payload : Payload) (st : DBState)
    (hpk : e.primary_key ≠ "") :
    (∀ rec, (save e payload st).1 = Except.ok (some rec) →
      ∀ kv ∈ rec, kv.1 ∈ allowedFields e) ∧
    (∀ call ∈ ((save e payload st).2).sqlLog, call ∈ st.sqlLog ∨
      ∀ c ∈ stmtCols call.1, c ∈ allowedFields e) :=
  ⟨save_ok_keys e payload st hpk, save_log e payload st hpk⟩

/-- Claim C1 (witness): the amended theorem applied at a concrete insert. -/
theorem c1_repo_whitelist_witness : ("name" : String) ∈ allowedFields custEntity :=
  (c1_repo_whitelist custEntity
    [("name", Value.vstr "Zed"), ("email", Value.vstr "z@q.io")] st0 (by decide)).1
    [("name", Value.vstr "Zed"), ("email", Value.vstr "z@q.io"), ("id", Value.vint 1)]
    (by decide) ("name", Value.vstr "Zed") (List.mem_cons_self _ _)

/-- Claim C2 (code bug evaluated): fetch_list, fetch_detail and save compile
with literal_binds=True, so every runtime value (the primary key, LIMIT and
OFFSET, payload values) is rendered into the executed SQL text and the
parameter list is empty; the SQL text differs between two primary-key
values.  Only search_lookup executes with placeholders and parameters, as
the claim (and the older mock-cursor tests) demand for all operations. -/
theorem c2_literal_binds_eval :
    ((fetchDetail custEntity (Value.vint 2) stBob).2.sqlLog.map renderExec =
      [("SELECT customers.id, customers.name, customers.email FROM customers WHERE customers.id = 2",
        [])]) ∧
    ((fetchDetail custEntity (Value.vint 3) stBob).2.sqlLog.map renderExec =
      [("SELECT customers.id, customers.name, customers.email FROM customers WHERE customers.id = 3",
        [])]) ∧
    ((fetchList custEntity 1 none none stBob).2.sqlLog.map renderExec =
      [("SELECT customers.id, customers.name, customers.email FROM customers ORDER BY customers.name ASC LIMIT 20 OFFSET 0",
        [])]) ∧
    ((save custEntity [("name", Value.vstr "Zed"), ("email", Value.vstr "z@q.io")] st0).2.sqlLog.map
        renderExec =
      [("INSERT INTO customers (name, email) VALUES (\x27Zed\x27, \x27z@q.io\x27)", [])]) ∧
    ((searchLookup custEntity "Al" 3 stBob).2.sqlLog.map renderExec =
      [("SELECT customers.id, customers.name FROM customers WHERE customers.name LIKE ? ORDER BY customers.name ASC LIMIT ?",
        [Value.vstr "%Al%", Value.vint 3])]) := by
  refine ⟨by decide, by decide, by decide, by decide, by decide⟩

/-- Claim C3 (code bug evaluated): for an exception classified Internal
(status 500), _error_context places str(exc) — the driver detail — into the
user-facing error of the context, while the 503 pool path gets the generic
message. -/
theorem c3_internal_error_leak :
    (errorContext none "list" opError 500).status = 500 ∧
    (errorContext none "list" opError 500).error = some opError.msg ∧
    (errorContext none "list" opError 500).error =
      some "(sqlite3.OperationalError) database unavailable" ∧
    (errorContext (some custEntity) "edit" poolError 500).status = 503 ∧
    (errorContext (some custEntity) "edit" poolError 500).error = some serviceUnavailableMsg := by
  refine ⟨by decide, by decide, by decide, by decide, by decide⟩

/-- Claim C4 (counterexample): a payload holding only a truthy primary key
leaves nothing to persist after filtering, yet save returns the fetched
record instead of failing with NoFieldsToSave. -/
theorem c4_counterexample :
    ((([("id", Value.vint 1)] : Payload).filter
        (fun kv => (allowedFields custEntity).contains kv.1)).filter
      (fun kv => kv.1 != custEntity.primary_key) = []) ∧
    (save custEntity [("id", Value.vint 1)] stBob).1 =
      Except.ok (some [("id", Value.vint 1), ("name", Value.vstr "Bob"),
        ("email", Value.vstr "b@x.com")]) := by
  exact ⟨by decide, by decide⟩

/-- Claim C4 (amended): when the filtered payload carries no truthy primary
key and, after dropping a falsy primary key, no field remains to insert,
save fails with the NoFieldsToSave error (ValueError "No fields to insert")
and neither writes a row nor issues any SQL. -/
theorem c4_no_fields_to_insert (e : Entity) (payload : Payload) (st : DBState)
    (htable : reMatchIdent e.table = true)
    (hconn : st.connectFault = none)
    (hupd : (pmem (payload.filter (fun kv => (allowedFields e).contains kv.1)) e.primary_key &&
       !(isFalsyRepo ((pget (payload.filter (fun kv => (allowedFields e).contains kv.1))
         e.primary_key).getD Value.vnull))) = false)
    (hfields : (payload.filter (fun kv => (allowedFields e).contains kv.1)).filter
       (fun kv => kv.1 != e.primary_key || !(isFalsyRepo kv.2)) = []) :
    (save e payload st).1 = Except.error (PyErr.valueError "No fields to insert") ∧
    ((save e payload st).2).rows = st.rows ∧
    ((save e payload st).2).sqlLog = st.sqlLog := by
  simp only [save]
  rw [safeIdentifier_ok _ htable]
  try dsimp only []
  unfold withConn
  rw [getConnection_eq, hconn]
  try dsimp only []
  rw [hupd]
  try dsimp only []
  rw [hfields]
  try dsimp only [List.isEmpty_nil]
  exact ⟨rfl, rfl, rfl⟩

/-- Claim C4 (witness): the amended theorem applied at the empty payload. -/
theorem c4_no_fields_to_insert_witness :
    (save custEntity [] st0).1 = Except.error (PyErr.valueError "No fields to insert") ∧
    ((save custEntity [] st0).2).rows = st0.rows ∧
    ((save custEntity [] st0).2).sqlLog = st0.sqlLog :=
  c4_no_fields_to_insert custEntity [] st0 (by decide) rfl (by decide) rfl

/-- Claim C5 (counterexample): save with a truthy primary key matching no
row and no other field returns None from the update branch — it neither
raises a not-found error nor inserts. -/
theorem c5_counterexample :
    (save custEntity [("id", Value.vint 999)] st0).1 = Except.ok none ∧
    ((save custEntity [("id", Value.vint 999)] st0).2).rows = st0.rows := by
  exact ⟨by decide, by decide⟩

/-- Claim C5 (amended): a truthy whitelisted primary key always takes the
UPDATE path and never inserts; when at least one other whitelisted field is
present and no row matches, save fails with the RecordNotFound ValueError;
when the primary key is the only field, save returns the fetch_detail
result, which is None for a missing row — in both cases the rows are
unchanged. -/
theorem c5_update_missing_row (e : Entity) (payload : Payload) (st : DBState)
    (htable : reMatchIdent e.table = true)
    (hpkid : reMatchIdent e.primary_key = true)
    (hcols : validateIdents (selectColumns e) = Except.ok ())
    (hconn : st.connectFault = none)
    (hexec : st.execFault = none)
    (hupd : (pmem (payload.filter (fun kv => (allowedFields e).contains kv.1)) e.primary_key &&
       !(isFalsyRepo ((pget (payload.filter (fun kv => (allowedFields e).contains kv.1))
         e.primary_key).getD Value.vnull))) = true)
    (hnom : ∀ r ∈ st.rows, rowMatchesPk r e.primary_key
       ((pget (payload.filter (fun kv => (allowedFields e).contains kv.1))
         e.primary_key).getD Value.vnull) = false) :
    (((payload.filter (fun kv => (allowedFields e).contains kv.1)).filter
        (fun kv => kv.1 != e.primary_key)) ≠ [] →
      (save e payload st).1 = Except.error (PyErr.valueError
        ("Record with " ++ e.primary_key ++ "=" ++
         pyStr ((pget (payload.filter (fun kv => (allowedFields e).contains kv.1))
           e.primary_key).getD Value.vnull) ++ " not found")) ∧
      ((save e payload st).2).rows = st.rows) ∧
    (((payload.filter (fun kv => (allowedFields e).contains kv.1)).filter
        (fun kv => kv.1 != e.primary_key)) = [] →
      (save e payload st).1 = Except.ok none ∧
      ((save e payload st).2).rows = st.rows) := by
  have hfilter : st.rows.filter (fun r => rowMatchesPk r e.primary_key
      ((pget (payload.filter (fun kv => (allowedFields e).contains kv.1))
        e.primary_key).getD Value.vnull)) = [] := by
    rw [List.filter_eq_nil_iff]
    intro a ha hcontra
    rw [hnom a ha] at hcontra
    exact Bool.false_ne_true hcontra
  have hfind : st.rows.find? (fun r => rowMatchesPk r e.primary_key
      ((pget (payload.filter (fun kv => (allowedFields e).contains kv.1))
        e.primary_key).getD Value.vnull)) = none := by
    rw [List.find?_eq_none]
    intro a ha hcontra
    rw [hnom a ha] at hcontra
    exact Bool.false_ne_true hcontra
  constructor
  · intro hne
    simp only [save]
    rw [safeIdentifier_ok _ htable]
    try dsimp only []
    unfold withConn
    rw [getConnection_eq, hconn]
    try dsimp only []
    rw [hupd]
    try dsimp only []
    rw [List.isEmpty_eq_false.mpr hne]
    try dsimp only []
    rw [safeIdentifier_ok _ hpkid]
    try dsimp only []
    rw [execStmt_eq]
    try dsimp only []
    rw [hexec]
    try dsimp only []
    rw [hfilter]
    try dsimp only [List.length_nil]
    exact ⟨rfl, rfl⟩
  · intro hemp
    simp only [save]
    rw [safeIdentifier_ok _ htable]
    try dsimp only []
    unfold withConn
    rw [getConnection_eq, hconn]
    try dsimp only []
    rw [hupd]
    try dsimp only []
    rw [hemp]
    try dsimp only [List.isEmpty_nil]
    try simp only [if_true]
    constructor
    · exact fetchDetail_not_found e _ _ htable hcols hpkid rfl hexec hfind
    · rw [releaseConn_rows, fetchDetail_rows]

/-- Claim C5 (witness): the amended theorem applied at a payload with a
non-key field and an absent row: the RecordNotFound error is raised and
nothing is inserted. -/
theorem c5_update_missing_row_witness :
    (save custEntity [("id", Value.vint 999), ("name", Value.vstr "X")] st0).1 =
      Except.error (PyErr.valueError "Record with id=999 not found") ∧
    ((save custEntity [("id", Value.vint 999), ("name", Value.vstr "X")] st0).2).rows =
      st0.rows :=
  (c5_update_missing_row custEntity [("id", Value.vint 999), ("name", Value.vstr "X")] st0
    (by decide) (by decide) (by decide) rfl rfl (by decide)
    (by intro r hr; simp [st0] at hr)).1 (by decide)

/-- Claim C6 (counterexample): save on the update path calls fetch_detail
while still holding its own connection, so a single save operation holds
two connections at once (high-water mark 2 from an idle pool). -/
theorem c6_counterexample :
    stBob.acquired = 0 ∧ stBob.maxAcquired = 0 ∧
    ((save custEntity [("id", Value.vint 1), ("name", Value.vstr "Bo")] stBob).2).maxAcquired
      = 2 := by
  exact ⟨rfl, rfl, by decide⟩

/-- Claim C6 (amended): every repository operation releases exactly the
connections it acquired before returning, on success, business error and
injected driver/pool exception alike (the acquired count is restored);
fetch_detail, fetch_list and search_lookup hold at most one connection at a
time, while save can transiently hold two (its own plus the one of the
fetch_detail it nests). -/
theorem c6_connection_discipline (e : Entity) (pk : Value) (page : Int)
    (pageSize : Option Int) (sort : Option String) (q : String) (limit : Int)
    (payload : Payload) (st : DBState) :
    ((fetchDetail e pk st).2).acquired = st.acquired ∧
    ((fetchDetail e pk st).2).maxAcquired ≤ max st.maxAcquired (st.acquired + 1) ∧
    ((fetchList e page pageSize sort st).2).acquired = st.acquired ∧
    ((fetchList e page pageSize sort st).2).maxAcquired ≤ max st.maxAcquired (st.acquired + 1) ∧
    ((searchLookup e q limit st).2).acquired = st.acquired ∧
    ((searchLookup e q limit st).2).maxAcquired ≤ max st.maxAcquired (st.acquired + 1) ∧
    ((save e payload st).2).acquired = st.acquired ∧
    ((save e payload st).2).maxAcquired ≤ max st.maxAcquired (st.acquired + 2) :=
  ⟨fetchDetail_acquired e pk st, fetchDetail_max e pk st,
   fetchList_acquired e page pageSize sort st, fetchList_max e page pageSize sort st,
   searchLookup_acquired e q limit st, searchLookup_max e q limit st,
   save_acquired e payload st, save_max e payload st⟩

/-- Claim C7 (counterexample): a falsy sort argument ("") whose stripped
target is not among the selected columns does not fall back to ascending:
the default sort "-name" is applied verbatim, so fetch_list orders by name
DESC, not by the first selected column ascending. -/
theorem c7_counterexample :
    (["id", "name"].contains (stripDash "") = false) ∧
    resolveSort (some "") ["id", "name"] (some "-name") = (some "name", "DESC") ∧
    ((fetchList entC7 1 none (some "") st0).2).sqlLog =
      [(Stmt.selectStmt "customers" ["id", "name"] none none (some ("name", "DESC"))
        (some 20) (some 0), true)] ∧
    resolveSort (some "") ["id", "name"] (some "-name") ≠ (some "id", "ASC") := by
  exact ⟨by decide, by decide, by decide, by decide⟩

/-- Claim C7 (amended): for every NON-EMPTY sort argument whose target
column (after stripping a leading "-") is not among the selected columns,
the effective order-by column equals list.default_sort when that is a
selected column, else the first selected column, and the direction resets
to ascending.  (An empty or absent sort instead applies default_sort
verbatim, including a leading dash.) -/
theorem c7_sort_fallback (s : String) (columns : List String) (dflt : Option String)
    (hne : s ≠ "") (hnc : columns.contains (stripDash s) = false) :
    resolveSort (some s) columns dflt =
      ((match dflt with
        | some d => if columns.contains d then some d else columns.head?
        | none => columns.head?), "ASC") := by
  have h2 : (s == "") = false := by
    rw [beq_eq_false_iff_ne]
    exact hne
  by_cases hd : strStartsWith s "-"
  · have hnc2 : columns.contains (strDrop s 1) = false := by
      have hsd : stripDash s = strDrop s 1 := by simp [stripDash, hd]
      rw [hsd] at hnc
      exact hnc
    simp [resolveSort, optTruthy, hne, h2, hd, hnc2]
    simpa using hnc2
  · have hnc2 : columns.contains s = false := by
      have hsd : stripDash s = s := by simp [stripDash, hd]
      rw [hsd] at hnc
      exact hnc
    simp [resolveSort, optTruthy, hne, h2, hd, hnc2]
    intro hmem
    exact absurd hmem (by simpa using hnc2)

/-- Claim C7 (witness): the amended theorem applied at an invalid sort with
a valid default. -/
theorem c7_sort_fallback_witness :
    resolveSort (some "bogus") ["id", "name"] (some "name") = (some "name", "ASC") :=
  c7_sort_fallback "bogus" ["id", "name"] (some "name") (by decide) (by decide)

/-- Claim C8 (confirmed): when any declared form field fails validation,
handle_save returns a 400 context carrying the per-field errors mapping and
the original form and payload as record, the caller payload is not mutated,
and the repository is never invoked (the database state is returned
exactly as it was). -/
theorem c8_validation_rejects (entities : List (String × Entity)) (entityName : String)
    (nm : String) (e : Entity) (payload : Payload) (st : DBState)
    (hfind : entities.find? (fun kv => kv.1 == entityName) = some (nm, e))
    (herr : collectErrors e payload ≠ []) :
    (handleSave entities entityName payload st).1.ok = false ∧
    (handleSave entities entityName payload st).1.status = 400 ∧
    (handleSave entities entityName payload st).1.errors = collectErrors e payload ∧
    (handleSave entities entityName payload st).1.record = some payload ∧
    (handleSave entities entityName payload st).1.form = some e.form ∧
    (handleSave entities entityName payload st).1.entity = some e ∧
    (handleSave entities entityName payload st).2.1 = payload ∧
    (handleSave entities entityName payload st).2.2 = st := by
  simp only [handleSave]
  rw [hfind]
  try dsimp only []
  rw [List.isEmpty_eq_false.mpr herr]
  try dsimp only []
  exact ⟨rfl, rfl, rfl, rfl, rfl, rfl, rfl, rfl⟩

/-- Claim C8 (witness): handle_save of the empty payload for the customer
entity, whose name and email are required. -/
theorem c8_validation_rejects_witness :
    (handleSave [("customer", custEntity)] "customer" [] st0).1.ok = false ∧
    (handleSave [("customer", custEntity)] "customer" [] st0).1.status = 400 ∧
    (handleSave [("customer", custEntity)] "customer" [] st0).1.errors =
      collectErrors custEntity [] ∧
    (handleSave [("customer", custEntity)] "customer" [] st0).1.record = some [] ∧
    (handleSave [("customer", custEntity)] "customer" [] st0).1.form = some custEntity.form ∧
    (handleSave [("customer", custEntity)] "customer" [] st0).1.entity = some custEntity ∧
    (handleSave [("customer", custEntity)] "customer" [] st0).2.1 = [] ∧
    (handleSave [("customer", custEntity)] "customer" [] st0).2.2 = st0 :=
  c8_validation_rejects [("customer", custEntity)] "customer" "customer" custEntity [] st0
    rfl (by decide)

/-- Claim C9 (counterexample): _safe_identifier accepts "name\n", which
does not match the identifier syntax, because the Python "$" anchor also
matches before a trailing newline; and save issues an INSERT whose column
list carries the non-identifier form-field name "bad name" without any
identifier check or abort. -/
theorem c9_counterexample :
    identSyntax "name\n" = false ∧
    safeIdentifier "name\n" = Except.ok "name\n" ∧
    identSyntax "bad name" = false ∧
    ((save entC9 [("bad name", Value.vstr "x")] st0).2).sqlLog =
      [(Stmt.insertStmt "widgets" [("bad name", Value.vstr "x")], true)] ∧
    (save entC9 [("bad name", Value.vstr "x")] st0).1 =
      Except.ok (some [("bad name", Value.vstr "x"), ("id", Value.vint 1)]) := by
  exact ⟨by decide, by decide, by decide, by decide, by decide⟩

/-- Claim C9 (amended): _safe_identifier raises the unsafe-identifier
ValueError for every name the Python regex match rejects (the identifier
syntax, tolerating one trailing newline); every repository operation whose
table name fails the check aborts before any SQL is issued and before any
connection is taken (the state is returned untouched), and the read
operations abort likewise when a selected column fails the check.  The
non-primary-key field names written by save are not identifier-checked. -/
theorem c9_identifier_guard (nm : String) (e : Entity) (pk : Value) (page : Int)
    (pageSize : Option Int) (sort : Option String) (q : String) (limit : Int)
    (payload : Payload) (st : DBState) :
    (reMatchIdent nm = false →
      safeIdentifier nm = Except.error (PyErr.valueError ("unsafe identifier: " ++ nm))) ∧
    (reMatchIdent e.table = false →
      fetchDetail e pk st =
        (Except.error (PyErr.valueError ("unsafe identifier: " ++ e.table)), st) ∧
      fetchList e page pageSize sort st =
        (Except.error (PyErr.valueError ("unsafe identifier: " ++ e.table)), st) ∧
      searchLookup e q limit st =
        (Except.error (PyErr.valueError ("unsafe identifier: " ++ e.table)), st) ∧
      save e payload st =
        (Except.error (PyErr.valueError ("unsafe identifier: " ++ e.table)), st)) ∧
    (∀ err, reMatchIdent e.table = true → validateIdents (selectColumns e) = Except.error err →
      fetchDetail e pk st = (Except.error err, st) ∧
      fetchList e page pageSize sort st = (Except.error err, st)) := by
  refine ⟨fun h => safeIdentifier_err _ h, fun h => ⟨?_, ?_, ?_, ?_⟩, fun err h1 h2 => ⟨?_, ?_⟩⟩
  · simp only [fetchDetail]
    rw [safeIdentifier_err _ h]
  · simp only [fetchList]
    rw [safeIdentifier_err _ h]
  · simp only [searchLookup]
    rw [safeIdentifier_err _ h]
  · simp only [save]
    rw [safeIdentifier_err _ h]
  · simp only [fetchDetail]
    rw [safeIdentifier_ok _ h1, h2]
  · simp only [fetchList]
    rw [safeIdentifier_ok _ h1, h2]

/-- Claim C9 (witness): the classic injection attempt as identifier, and a
fetch_detail against an entity with that table name aborting with the state
untouched. -/
theorem c9_identifier_guard_witness :
    safeIdentifier "a;DROP TABLE" =
      Except.error (PyErr.valueError "unsafe identifier: a;DROP TABLE") ∧
    fetchDetail entBadTable (Value.vint 1) st0 =
      (Except.error (PyErr.valueError "unsafe identifier: a;DROP TABLE"), st0) :=
  ⟨(c9_identifier_guard "a;DROP TABLE" entBadTable (Value.vint 1) 1 none none "" 10 [] st0).1
      (by decide),
   ((c9_identifier_guard "a;DROP TABLE" entBadTable (Value.vint 1) 1 none none "" 10 []
      st0).2.1 (by decide)).1⟩

/-- Claim C10 (confirmed): on the update path (truthy primary-key value),
after validation passes, handle_save overwrites the primary-key entry of
the caller payload mapping with its int conversion before calling the
repository: the payload the caller observes afterwards is the original
with the primary key replaced by the converted integer. -/
theorem c10_payload_mutation (entities : List (String × Entity)) (entityName : String)
    (nm : String) (e : Entity) (payload : Payload) (st : DBState) (n : Int)
    (hfind : entities.find? (fun kv => kv.1 == entityName) = some (nm, e))
    (hnoerr : collectErrors e payload = [])
    (hupd : (pmem payload e.primary_key &&
      !(isFalsySvc ((pget payload e.primary_key).getD Value.vnull))) = true)
    (hint : pyToInt ((pget payload e.primary_key).getD Value.vnull) = some n) :
    (handleSave entities entityName payload st).2.1 =
      pset payload e.primary_key (Value.vint n) := by
  have hco := (Bool.and_eq_true _ _).mp hupd
  simp only [handleSave]
  rw [hfind]
  try dsimp only []
  simp only [hnoerr, List.isEmpty_nil, Bool.not_true, Bool.false_eq_true, if_false]
  simp only [hco.1, hco.2, Bool.true_and, Bool.and_self, eq_self_iff_true, if_true]
  rw [hint]
  try dsimp only []
  split <;> rfl

/-- Claim C10 (witness): a string primary key "5" in the caller payload is
observed as the integer 5 after handle_save, so the caller argument
changed. -/
theorem c10_payload_mutation_witness :
    (handleSave [("customer", custEntity)] "customer"
      [("id", Value.vstr "5"), ("name", Value.vstr "A"), ("email", Value.vstr "a@b.c")]
      stBob).2.1 =
      pset [("id", Value.vstr "5"), ("name", Value.vstr "A"), ("email", Value.vstr "a@b.c")]
        custEntity.primary_key (Value.vint 5) ∧
    pset [("id", Value.vstr "5"), ("name", Value.vstr "A"), ("email", Value.vstr "a@b.c")]
        custEntity.primary_key (Value.vint 5) ≠
      [("id", Value.vstr "5"), ("name", Value.vstr "A"), ("email", Value.vstr "a@b.c")] :=
  ⟨c10_payload_mutation [("customer", custEntity)] "customer" "customer" custEntity
      [("id", Value.vstr "5"), ("name", Value.vstr "A"), ("email", Value.vstr "a@b.c")]
      stBob 5 rfl (by decide) (by decide) (by decide),
   by decide⟩
